import Mathlib

/-!
Shallow embedding of the SIANA robot control core (robot-code/), covering
`hardware/motors.py` (MotorController), `control/safety.py` (SafetyManager)
and `control/navigation.py` (NavigationController / command dispatch).

Modelling conventions:
* Python floats are embedded as exact rationals (`ℚ`); the claims checked
  here are ordering / equality facts at small magnitudes, unaffected by
  float rounding.
* `math.pi` is an (unspecified) rational double; functions that use it take
  it as an explicit parameter `piq`, and the proved properties hold for
  every value of that parameter.
* GPIO / PWM pin writes, logging and thread scheduling are hardware or I/O
  effects outside the embedded state; the mutable Python attributes that
  the spec talks about (speed targets, currents, tick counters, latches,
  LED state, robot state, watchdog clock) are all carried in the state
  records below.  Each Python method becomes a state-transformer function.
-/

/-! ## Configuration constants (config.py, navigation.py, safety.py) -/

/-- config.py: SPEED_MIN_PERCENT = 20. -/
def SPEED_MIN_PERCENT : ℚ := 20

/-- config.py: SPEED_MAX_PERCENT = 100. -/
def SPEED_MAX_PERCENT : ℚ := 100

/-- config.py: SPEED_DEFAULT = 60. -/
def SPEED_DEFAULT : ℚ := 60

/-- config.py: TURN_SPEED_FACTOR = 0.7. -/
def TURN_SPEED_FACTOR : ℚ := 7/10

/-- config.py: RAMP_STEP = 5 (percent per ramp tick). -/
def RAMP_STEP : ℚ := 5

/-- navigation.py: SPEED_STEP = 10 (percent per speed_up / speed_down). -/
def SPEED_STEP : ℚ := 10

/-- safety.py: SafetyManager.WATCHDOG_TIMEOUT_S = 15. -/
def WATCHDOG_TIMEOUT_S : ℚ := 15

/-- safety.py: SafetyManager.FOSSE_LENGTH_M = 200. -/
def FOSSE_LENGTH_M : ℚ := 200

/-- config.py: US_MIN_DISTANCE_CM = 15 (critical obstacle distance). -/
def US_MIN_DISTANCE_CM : ℚ := 15

/-- config.py: ENCODER_TICKS_PER_REV = 360. -/
def ENCODER_TICKS_PER_REV : ℚ := 360

/-- config.py: WHEEL_DIAMETER_MM = 120. -/
def WHEEL_DIAMETER_MM : ℚ := 120

/-- config.py: WHEEL_BASE_MM = 450. -/
def WHEEL_BASE_MM : ℚ := 450

/-- config.py: LED_LIGHTING_DEFAULT = 80 (percent duty). -/
def LED_LIGHTING_DEFAULT : ℚ := 80

/-! ## MotorController state (hardware/motors.py) -/

/-- Mutable state of `MotorController`: speed targets (before ramp),
current speeds (after ramp), the motor-level emergency flag, the encoder
tick counters, and the odometry accumulators. -/
structure MotorsState where
  targetLeft   : ℚ
  targetRight  : ℚ
  currentLeft  : ℚ
  currentRight : ℚ
  emergency    : Bool
  ticksLeft    : ℤ
  ticksRight   : ℤ
  distM        : ℚ
  heading      : ℚ
  deriving DecidableEq, Repr

/-- Python `MotorController.__init__`: targets, currents, ticks, distance and
heading all start at zero, emergency flag clear. -/
def MotorsState.init : MotorsState :=
  { targetLeft := 0, targetRight := 0, currentLeft := 0, currentRight := 0
  , emergency := false, ticksLeft := 0, ticksRight := 0, distM := 0, heading := 0 }

/-- Python clamp `max(-SPEED_MAX_PERCENT, min(SPEED_MAX_PERCENT, x))`
as used by `_set_targets`. -/
def clampSpeed (x : ℚ) : ℚ :=
  max (-SPEED_MAX_PERCENT) (min SPEED_MAX_PERCENT x)

/-- Python `MotorController._set_targets(left, right)`: returns immediately when
the emergency flag is set; otherwise stores both arguments clamped to
[-SPEED_MAX_PERCENT, SPEED_MAX_PERCENT]. -/
def MotorsState.set_targets (m : MotorsState) (left right : ℚ) : MotorsState :=
  if m.emergency then m
  else { m with targetLeft := clampSpeed left, targetRight := clampSpeed right }

/-- Python `MotorController.forward(speed)` with an explicit speed argument. -/
def MotorsState.forward (m : MotorsState) (s : ℚ) : MotorsState :=
  m.set_targets s s

/-- Python `MotorController.backward(speed)` with an explicit speed argument. -/
def MotorsState.backward (m : MotorsState) (s : ℚ) : MotorsState :=
  m.set_targets (-s) (-s)

/-- Python `MotorController.turn_left(speed)`. -/
def MotorsState.turn_left (m : MotorsState) (s : ℚ) : MotorsState :=
  m.set_targets (s * TURN_SPEED_FACTOR) s

/-- Python `MotorController.turn_right(speed)`. -/
def MotorsState.turn_right (m : MotorsState) (s : ℚ) : MotorsState :=
  m.set_targets s (s * TURN_SPEED_FACTOR)

/-- Python `MotorController.pivot_left(speed)` with an explicit speed argument. -/
def MotorsState.pivot_left (m : MotorsState) (s : ℚ) : MotorsState :=
  m.set_targets (-s) s

/-- Python `MotorController.pivot_right(speed)` with an explicit speed argument. -/
def MotorsState.pivot_right (m : MotorsState) (s : ℚ) : MotorsState :=
  m.set_targets s (-s)

/-- Python `MotorController.set_speed_pct(speed_pct)`: keeps the current
sign of each wheel target (a target of exactly 0 counts as non-negative,
hence sign +1),
rescales the magnitude to `max(SPEED_MIN_PERCENT, abs(speed_pct))`, and
delegates to `_set_targets`. -/
def MotorsState.set_speed_pct (m : MotorsState) (speedPct : ℚ) : MotorsState :=
  let lSign : ℚ := if 0 ≤ m.targetLeft then 1 else -1
  let rSign : ℚ := if 0 ≤ m.targetRight then 1 else -1
  let s := max SPEED_MIN_PERCENT |speedPct|
  m.set_targets (lSign * s) (rSign * s)

/-- Python `MotorController.stop()`: sets both targets to 0 via `_set_targets`
(the ramp then decelerates smoothly). -/
def MotorsState.stop (m : MotorsState) : MotorsState :=
  m.set_targets 0 0

/-- Python `MotorController.brake()`: writes targets and currents to 0 directly
(bypassing both the ramp and the emergency guard of `_set_targets`);
the H-bridge is put in the active-brake configuration (hardware effect). -/
def MotorsState.brake (m : MotorsState) : MotorsState :=
  { m with targetLeft := 0, targetRight := 0, currentLeft := 0, currentRight := 0 }

/-- Python `MotorController.emergency_stop()`: sets the motor emergency flag and
zeroes targets and currents; the H-bridge is put in coast (hardware). -/
def MotorsState.emergency_stop (m : MotorsState) : MotorsState :=
  { m with emergency := true
         , targetLeft := 0, targetRight := 0, currentLeft := 0, currentRight := 0 }

/-- Python `MotorController.release_emergency()`: clears the motor emergency flag. -/
def MotorsState.release_emergency (m : MotorsState) : MotorsState :=
  { m with emergency := false }

/-- Python `MotorController.reset_odometry()`: zeroes ticks, distance, heading. -/
def MotorsState.reset_odometry (m : MotorsState) : MotorsState :=
  { m with ticksLeft := 0, ticksRight := 0, distM := 0, heading := 0 }

/-! ## Ramp generator (`_ramp_loop` body, hardware/motors.py) -/

/-- One per-wheel step of the ramp loop body: if the gap between current
and target is smaller than RAMP_STEP, snap to the target; otherwise move
exactly RAMP_STEP toward the target. -/
def rampNext (current target : ℚ) : ℚ :=
  if |current - target| < RAMP_STEP then target
  else if current < target then current + RAMP_STEP
  else current - RAMP_STEP

/-- One full iteration of `_ramp_loop` over both wheels; the loop body is
guarded by `if not self._emergency`. -/
def MotorsState.ramp_tick (m : MotorsState) : MotorsState :=
  if m.emergency then m
  else { m with currentLeft := rampNext m.currentLeft m.targetLeft
              , currentRight := rampNext m.currentRight m.targetRight }

/-- Iterating the per-wheel ramp step with a fixed target. -/
def rampIter (n : ℕ) (current target : ℚ) : ℚ :=
  (fun c => rampNext c target)^[n] current

/-! ## Odometry (`update_odometry`, hardware/motors.py) -/

/-- Python float modulo `x % m` (for finite operands): `x - m * floor(x / m)`;
used by `update_odometry` for `heading % 360`. -/
def floatMod (x m : ℚ) : ℚ :=
  x - m * (⌊x / m⌋ : ℤ)

/-- Python `MotorController.update_odometry()`: drains the tick counters, converts
them to per-wheel arc lengths via the wheel circumference `piq * diameter`,
accumulates `distM += |center displacement|` and
`heading = (heading + degrees(diff / wheelbase)) % 360`.
`piq` stands for the rational double `math.pi` (and `degrees x = x * 180 / piq`). -/
def MotorsState.update_odometry (piq : ℚ) (m : MotorsState) : MotorsState :=
  let tl : ℚ := (m.ticksLeft : ℚ)
  let tr : ℚ := (m.ticksRight : ℚ)
  let wheelCirc := piq * (WHEEL_DIAMETER_MM / 1000)
  let distL := (tl / ENCODER_TICKS_PER_REV) * wheelCirc
  let distR := (tr / ENCODER_TICKS_PER_REV) * wheelCirc
  let distCenter := (distL + distR) / 2
  let deltaTheta := ((distR - distL) / (WHEEL_BASE_MM / 1000)) * 180 / piq
  { m with ticksLeft := 0, ticksRight := 0
         , distM := m.distM + |distCenter|
         , heading := floatMod (m.heading + deltaTheta) 360 }

/-! ## LedController state (hardware/leds.py) -/

/-- Keys of LED_PATTERNS in hardware/leds.py. -/
def LED_PATTERN_NAMES : List String :=
  ["idle", "ready", "moving", "warning", "battery_low", "emergency", "fault", "paused"]

/-- Observable state of `LedController`: the current pattern name, the
list of `flash` requests issued (most recent first; the blink itself is a
GPIO effect), and the under-chassis lighting duty. -/
structure LedsState where
  state        : String
  flashes      : List String
  lightingDuty : ℚ
  deriving DecidableEq, Repr

/-- Python `LedController.__init__`: state "idle", lighting at the default duty. -/
def LedsState.init : LedsState :=
  { state := "idle", flashes := [], lightingDuty := LED_LIGHTING_DEFAULT }

/-- Python `LedController.set_state(state_name)`: ignored when the name is not a
known pattern, otherwise records it as the current state. -/
def LedsState.set_state (l : LedsState) (name : String) : LedsState :=
  if name ∈ LED_PATTERN_NAMES then { l with state := name } else l

/-- Python `LedController.flash(color, times)`: records the flash request (the
blink itself is a GPIO side effect and restores no state). -/
def LedsState.flash (l : LedsState) (color : String) : LedsState :=
  { l with flashes := color :: l.flashes }

/-- Python `LedController.set_lighting(duty_pct)`: clamps into [0, 100]. -/
def LedsState.set_lighting (l : LedsState) (duty : ℚ) : LedsState :=
  { l with lightingDuty := max 0 (min 100 duty) }

/-- Python `LedController.lighting_on()`. -/
def LedsState.lighting_on (l : LedsState) : LedsState :=
  l.set_lighting LED_LIGHTING_DEFAULT

/-- Python `LedController.lighting_off()`. -/
def LedsState.lighting_off (l : LedsState) : LedsState :=
  l.set_lighting 0

/-! ## Robot state machine (control/navigation.py) -/

/-- Python `RobotState` enum from control/navigation.py. -/
inductive RobotState where
  | IDLE
  | MOVING_FORWARD
  | MOVING_BACKWARD
  | TURNING_LEFT
  | TURNING_RIGHT
  | PIVOT_LEFT
  | PIVOT_RIGHT
  | PAUSED
  | EMERGENCY_STOP
  | FAULT
  deriving DecidableEq, Repr

/-- Python `RobotState.<member>.name`, used by `_resp` / telemetry. -/
def RobotState.name : RobotState → String
  | .IDLE => "IDLE"
  | .MOVING_FORWARD => "MOVING_FORWARD"
  | .MOVING_BACKWARD => "MOVING_BACKWARD"
  | .TURNING_LEFT => "TURNING_LEFT"
  | .TURNING_RIGHT => "TURNING_RIGHT"
  | .PIVOT_LEFT => "PIVOT_LEFT"
  | .PIVOT_RIGHT => "PIVOT_RIGHT"
  | .PAUSED => "PAUSED"
  | .EMERGENCY_STOP => "EMERGENCY_STOP"
  | .FAULT => "FAULT"

/-- Mutable state of `NavigationController`: robot state, current speed
percentage, inspection flag. -/
structure NavState where
  state      : RobotState
  speedPct   : ℚ
  inspecting : Bool
  deriving DecidableEq, Repr

/-- Python `NavigationController.__init__`: IDLE at 60 %. -/
def NavState.init : NavState :=
  { state := RobotState.IDLE, speedPct := 60, inspecting := false }

/-! ## Sensor readings (hardware/sensors.py, ObstacleManager) -/

/-- Last distances (cm) of the three ultrasonic sensors; `ObstacleManager`
initialises every reading to 999.0 (clear path). -/
structure Readings where
  front : ℚ
  rear  : ℚ
  left  : ℚ
  deriving DecidableEq, Repr

/-- Python `self._readings.get(direction, 999.0)` over the fixed key set
{"front", "rear", "left"}. -/
def Readings.get (r : Readings) (direction : String) : ℚ :=
  if direction = "front" then r.front
  else if direction = "rear" then r.rear
  else if direction = "left" then r.left
  else 999

/-- Python `ObstacleManager.__init__` readings default. -/
def Readings.init : Readings := { front := 999, rear := 999, left := 999 }

/-! ## SafetyManager state (control/safety.py) -/

/-- Mutable state of `SafetyManager`: the emergency latch and the watchdog
clock (timestamp of the last accepted command / heartbeat). -/
structure SafetyState where
  estopActive  : Bool
  lastCommandT : ℚ
  deriving DecidableEq, Repr

/-! ## Combined system state -/

/-- The wired system: navigation, motors, safety, LEDs and the obstacle
readings consulted by `is_path_clear`.  `navWired` models whether
`SafetyManager._nav` has been set (main.py calls `set_navigation` after
construction; before that `_nav` is None).  `cameraOk` models whether
`CameraStream.save_snapshot` succeeds. -/
structure Sys where
  nav      : NavState
  navWired : Bool
  motors   : MotorsState
  safety   : SafetyState
  leds     : LedsState
  readings : Readings
  cameraOk : Bool
  deriving DecidableEq, Repr

/-- Helper for `NavigationController._set_state`. -/
def Sys.set_state (s : Sys) (st : RobotState) : Sys :=
  { s with nav := { s.nav with state := st } }

/-- Python `SafetyManager.is_path_clear` → `ObstacleManager.is_path_clear`:
true iff the latest reading for the direction exceeds US_MIN_DISTANCE_CM. -/
def Sys.is_path_clear (s : Sys) (direction : String) : Prop :=
  s.readings.get direction > US_MIN_DISTANCE_CM

instance (s : Sys) (d : String) : Decidable (s.is_path_clear d) := by
  unfold Sys.is_path_clear; infer_instance

/-! ## SafetyManager actions (control/safety.py) -/

/-- Python `SafetyManager.trigger_emergency(reason)`: no-op when the latch is
already set; otherwise sets the latch, calls `motors.emergency_stop()`,
sets the LEDs to "emergency", and (when navigation is wired) forces
RobotState to EMERGENCY_STOP. -/
def trigger_emergency (s : Sys) : Sys :=
  if s.safety.estopActive then s
  else
    let s1 : Sys :=
      { s with safety := { s.safety with estopActive := true }
             , motors := s.motors.emergency_stop
             , leds := s.leds.set_state "emergency" }
    if s1.navWired then s1.set_state RobotState.EMERGENCY_STOP else s1

/-- Python `SafetyManager.release_emergency(reason)` at wall-clock time `now`:
no-op when the latch is not set; otherwise clears the latch, calls
`motors.release_emergency()`, sets the LEDs to "ready", (when wired)
returns RobotState to IDLE, and resets the watchdog clock to `now`. -/
def release_emergency (now : ℚ) (s : Sys) : Sys :=
  if !s.safety.estopActive then s
  else
    let s1 : Sys :=
      { s with safety := { s.safety with estopActive := false }
             , motors := s.motors.release_emergency
             , leds := s.leds.set_state "ready" }
    let s2 := if s1.navWired then s1.set_state RobotState.IDLE else s1
    { s2 with safety := { s2.safety with lastCommandT := now } }

/-- Python `SafetyManager.heartbeat()` at wall-clock time `now`. -/
def heartbeat (now : ℚ) (s : Sys) : Sys :=
  { s with safety := { s.safety with lastCommandT := now } }

/-- The direction-correlation test of `_on_obstacle_critical`:
`moving_forward or moving_backward` in the Python source. -/
def critical_correlated (s : Sys) (sensorName : String) : Prop :=
  (s.nav.state = RobotState.MOVING_FORWARD ∧ sensorName = "front")
  ∨ (s.nav.state = RobotState.MOVING_BACKWARD ∧ sensorName = "rear")

instance (s : Sys) (n : String) : Decidable (critical_correlated s n) := by
  unfold critical_correlated; infer_instance

/-- Python `SafetyManager._on_obstacle_critical(sensor_name, dist_cm)`: when
navigation is wired, triggers the emergency latch only if the robot is
moving forward and the sensor is "front", or moving backward and the
sensor is "rear" (any other combination does nothing); when navigation is
not wired (`self._nav` is None), brakes the motors. -/
def on_obstacle_critical (sensorName : String) (_distCm : ℚ) (s : Sys) : Sys :=
  if s.navWired then
    if critical_correlated s sensorName then trigger_emergency s
    else s
  else { s with motors := s.motors.brake }

/-- Python `SafetyManager._on_obstacle_warning(sensor_name, dist_cm)`: LEDs to
"warning"; when wired and translating, halves the commanded speed with a
floor of 20 %. -/
def on_obstacle_warning (_sensorName : String) (_distCm : ℚ) (s : Sys) : Sys :=
  let s1 := { s with leds := s.leds.set_state "warning" }
  if s1.navWired ∧ (s1.nav.state = RobotState.MOVING_FORWARD
                    ∨ s1.nav.state = RobotState.MOVING_BACKWARD) then
    { s1 with motors := s1.motors.set_speed_pct (max 20 (s1.nav.speedPct * (1/2))) }
  else s1

/-- Python `SafetyManager._on_low_battery(soc_pct)`: LEDs to "battery_low";
below 5 % escalates to the full emergency latch. -/
def on_low_battery (socPct : ℚ) (s : Sys) : Sys :=
  let s1 := { s with leds := s.leds.set_state "battery_low" }
  if socPct < 5 then trigger_emergency s1 else s1

/-- One iteration body of `SafetyManager._watchdog_loop` evaluated at
wall-clock time `now`: when the latch is not set and more than
WATCHDOG_TIMEOUT_S elapsed since the last command, calls `motors.stop()`
(a non-latching soft stop), returns RobotState to IDLE (when wired) and
sets the LEDs to "warning". -/
def watchdog_check (now : ℚ) (s : Sys) : Sys :=
  if s.safety.estopActive then s
  else if now - s.safety.lastCommandT > WATCHDOG_TIMEOUT_S then
    let s1 : Sys := { s with motors := s.motors.stop }
    let s2 := if s1.navWired then s1.set_state RobotState.IDLE else s1
    { s2 with leds := s2.leds.set_state "warning" }
  else s

/-- Python `SafetyManager.check_fosse_limits(distance_m)`: within 2 m of the
200 m limit, soft-stops the motors and flashes orange; at or beyond the
limit, additionally triggers the full emergency latch. -/
def check_fosse_limits (distanceM : ℚ) (s : Sys) : Sys :=
  let s1 :=
    if distanceM ≥ FOSSE_LENGTH_M - 2 then
      { s with motors := s.motors.stop, leds := s.leds.flash "orange" }
    else s
  if distanceM ≥ FOSSE_LENGTH_M then trigger_emergency s1 else s1

/-! ## NavigationController command dispatch (control/navigation.py) -/

/-- ASCII lowering of one character, as Python `str.lower` acts on the
ASCII command vocabulary. -/
def charLower (ch : Char) : Char :=
  if 65 ≤ ch.toNat ∧ ch.toNat ≤ 90 then Char.ofNat (ch.toNat + 32) else ch

/-- Python `action.lower().strip()` as used by `handle_command` (ASCII
lowering, whitespace stripped from both ends). -/
def pyLowerStrip (a : String) : String :=
  let lowered := a.data.map charLower
  String.mk (((lowered.dropWhile Char.isWhitespace).reverse.dropWhile
      Char.isWhitespace).reverse)

/-- A serialized operator command: the action string and the optional
numeric "value" field. -/
structure Cmd where
  action : String
  value  : Option ℚ
  deriving DecidableEq, Repr

/-- The uniform result record built by `NavigationController._resp`
(extra fields such as the snapshot filepath are not claim-relevant and
are elided). -/
structure Resp where
  ok    : Bool
  msg   : String
  state : String
  speed : ℚ
  deriving DecidableEq, Repr

/-- VALID_COMMANDS from control/navigation.py. -/
def VALID_COMMANDS : List String :=
  [ "forward", "backward", "turn_left", "turn_right", "pivot_left", "pivot_right"
  , "stop", "brake"
  , "speed_up", "speed_down", "set_speed"
  , "inspect_start", "inspect_stop", "inspect_pause", "inspect_resume"
  , "estop", "estop_release"
  , "light_on", "light_off", "light_set", "snapshot"
  , "ping", "reset_odometry" ]

/-- The rejection message returned while the emergency stop is active. -/
def MSG_EMERGENCY_ACTIVE : String :=
  "ARRÊT D\x27URGENCE actif — seule la commande estop_release est acceptée"

/-- Python `NavigationController._resp(ok, msg)` read off a system state. -/
def mk_resp (s : Sys) (ok : Bool) (msg : String) : Resp :=
  { ok := ok, msg := msg, state := s.nav.state.name, speed := s.nav.speedPct }

/-- Python `_cmd_forward`: refuses when the front path is blocked; otherwise
commands both motors forward at the current speed. -/
def cmd_forward (_c : Cmd) (s : Sys) : Sys × Resp :=
  if ¬ s.is_path_clear "front" then
    (s, mk_resp s false "Obstacle détecté à l\x27avant — déplacement bloqué")
  else
    let s1 := { s with motors := s.motors.forward s.nav.speedPct }
    let s2 := (s1.set_state RobotState.MOVING_FORWARD)
    let s3 := { s2 with leds := s2.leds.set_state "moving" }
    (s3, mk_resp s3 true "Avance")

/-- Python `_cmd_backward`: refuses when the rear path is blocked. -/
def cmd_backward (_c : Cmd) (s : Sys) : Sys × Resp :=
  if ¬ s.is_path_clear "rear" then
    (s, mk_resp s false "Obstacle détecté à l\x27arrière — déplacement bloqué")
  else
    let s1 := { s with motors := s.motors.backward s.nav.speedPct }
    let s2 := (s1.set_state RobotState.MOVING_BACKWARD)
    let s3 := { s2 with leds := s2.leds.set_state "moving" }
    (s3, mk_resp s3 true "Recule")

/-- Python `_cmd_turn_left`. -/
def cmd_turn_left (_c : Cmd) (s : Sys) : Sys × Resp :=
  let s1 := { s with motors := s.motors.turn_left s.nav.speedPct }
  let s2 := (s1.set_state RobotState.TURNING_LEFT)
  let s3 := { s2 with leds := s2.leds.set_state "moving" }
  (s3, mk_resp s3 true "Virage gauche")

/-- Python `_cmd_turn_right`. -/
def cmd_turn_right (_c : Cmd) (s : Sys) : Sys × Resp :=
  let s1 := { s with motors := s.motors.turn_right s.nav.speedPct }
  let s2 := (s1.set_state RobotState.TURNING_RIGHT)
  let s3 := { s2 with leds := s2.leds.set_state "moving" }
  (s3, mk_resp s3 true "Virage droite")

/-- Python `_cmd_pivot_left`: pivots at 60 % of the current speed. -/
def cmd_pivot_left (_c : Cmd) (s : Sys) : Sys × Resp :=
  let s1 := { s with motors := s.motors.pivot_left (s.nav.speedPct * (6/10)) }
  let s2 := (s1.set_state RobotState.PIVOT_LEFT)
  let s3 := { s2 with leds := s2.leds.set_state "moving" }
  (s3, mk_resp s3 true "Pivotement gauche")

/-- Python `_cmd_pivot_right`. -/
def cmd_pivot_right (_c : Cmd) (s : Sys) : Sys × Resp :=
  let s1 := { s with motors := s.motors.pivot_right (s.nav.speedPct * (6/10)) }
  let s2 := (s1.set_state RobotState.PIVOT_RIGHT)
  let s3 := { s2 with leds := s2.leds.set_state "moving" }
  (s3, mk_resp s3 true "Pivotement droite")

/-- Python `_cmd_stop`: smooth ramp-down. -/
def cmd_stop (_c : Cmd) (s : Sys) : Sys × Resp :=
  let s1 := { s with motors := s.motors.stop }
  let s2 := (s1.set_state RobotState.IDLE)
  let s3 := { s2 with leds := s2.leds.set_state "ready" }
  (s3, mk_resp s3 true "Arrêt progressif")

/-- Python `_cmd_brake`: immediate brake. -/
def cmd_brake (_c : Cmd) (s : Sys) : Sys × Resp :=
  let s1 := { s with motors := s.motors.brake }
  let s2 := (s1.set_state RobotState.IDLE)
  let s3 := { s2 with leds := s2.leds.set_state "ready" }
  (s3, mk_resp s3 true "Frein immédiat")

/-- Python `_cmd_speed_up`: +SPEED_STEP, capped at 100, applied to the motors. -/
def cmd_speed_up (_c : Cmd) (s : Sys) : Sys × Resp :=
  let newSpeed := min 100 (s.nav.speedPct + SPEED_STEP)
  let s1 := { s with nav := { s.nav with speedPct := newSpeed } }
  let s2 := { s1 with motors := s1.motors.set_speed_pct newSpeed }
  (s2, mk_resp s2 true "Vitesse modifiée")

/-- Python `_cmd_speed_down`: -SPEED_STEP, floored at 20. -/
def cmd_speed_down (_c : Cmd) (s : Sys) : Sys × Resp :=
  let newSpeed := max 20 (s.nav.speedPct - SPEED_STEP)
  let s1 := { s with nav := { s.nav with speedPct := newSpeed } }
  let s2 := { s1 with motors := s1.motors.set_speed_pct newSpeed }
  (s2, mk_resp s2 true "Vitesse modifiée")

/-- Python `_cmd_set_speed`: absolute speed, clamped into [20, 100]; a missing
"value" defaults to the current speed. -/
def cmd_set_speed (c : Cmd) (s : Sys) : Sys × Resp :=
  let v := c.value.getD s.nav.speedPct
  let newSpeed := max 20 (min 100 v)
  let s1 := { s with nav := { s.nav with speedPct := newSpeed } }
  let s2 := { s1 with motors := s1.motors.set_speed_pct newSpeed }
  (s2, mk_resp s2 true "Vitesse réglée")

/-- Python `_cmd_inspect_start`: sets the inspection flag, resets odometry,
turns the lighting on (camera overlay is a video effect). -/
def cmd_inspect_start (_c : Cmd) (s : Sys) : Sys × Resp :=
  let s1 := { s with nav := { s.nav with inspecting := true }
                   , motors := s.motors.reset_odometry }
  let s2 := { s1 with leds := (s1.leds.lighting_on).set_state "ready" }
  (s2, mk_resp s2 true "Inspection démarrée")

/-- Python `_cmd_inspect_stop`: clears the inspection flag, stops the motors,
turns the lighting off. -/
def cmd_inspect_stop (_c : Cmd) (s : Sys) : Sys × Resp :=
  let s1 := { s with nav := { s.nav with inspecting := false }
                   , motors := s.motors.stop }
  let s2 := { s1 with leds := (s1.leds.lighting_off).set_state "ready" }
  (s2, mk_resp s2 true "Inspection terminée")

/-- Python `_cmd_inspect_pause`: stops the motors, state PAUSED. -/
def cmd_inspect_pause (_c : Cmd) (s : Sys) : Sys × Resp :=
  let s1 := { s with motors := s.motors.stop }
  let s2 := (s1.set_state RobotState.PAUSED)
  let s3 := { s2 with leds := s2.leds.set_state "paused" }
  (s3, mk_resp s3 true "Inspection pausée")

/-- Python `_cmd_inspect_resume`: state IDLE. -/
def cmd_inspect_resume (_c : Cmd) (s : Sys) : Sys × Resp :=
  let s1 := (s.set_state RobotState.IDLE)
  let s2 := { s1 with leds := s1.leds.set_state "ready" }
  (s2, mk_resp s2 true "Inspection reprise")

/-- Python `_cmd_estop`: calls `motors.emergency_stop()` directly, sets
RobotState to EMERGENCY_STOP and the LEDs to "emergency".  Note that it
does NOT go through `SafetyManager.trigger_emergency`: the SafetyManager
latch `_estop_active` is not touched. -/
def cmd_estop (_c : Cmd) (s : Sys) : Sys × Resp :=
  let s1 := { s with motors := s.motors.emergency_stop }
  let s2 := (s1.set_state RobotState.EMERGENCY_STOP)
  let s3 := { s2 with leds := s2.leds.set_state "emergency" }
  (s3, mk_resp s3 true "ARRÊT D\x27URGENCE activé")

/-- Python `_cmd_estop_release`: calls `motors.release_emergency()` directly,
sets RobotState to IDLE and the LEDs to "ready".  Note that it does NOT
go through `SafetyManager.release_emergency`: the SafetyManager latch and
the watchdog clock are not touched. -/
def cmd_estop_release (_c : Cmd) (s : Sys) : Sys × Resp :=
  let s1 := { s with motors := s.motors.release_emergency }
  let s2 := (s1.set_state RobotState.IDLE)
  let s3 := { s2 with leds := s2.leds.set_state "ready" }
  (s3, mk_resp s3 true "Arrêt d\x27urgence relâché")

/-- Python `_cmd_light_on`. -/
def cmd_light_on (_c : Cmd) (s : Sys) : Sys × Resp :=
  let s1 := { s with leds := s.leds.lighting_on }
  (s1, mk_resp s1 true "Éclairage ON")

/-- Python `_cmd_light_off`. -/
def cmd_light_off (_c : Cmd) (s : Sys) : Sys × Resp :=
  let s1 := { s with leds := s.leds.lighting_off }
  (s1, mk_resp s1 true "Éclairage OFF")

/-- Python `_cmd_light_set`: a missing "value" defaults to 80. -/
def cmd_light_set (c : Cmd) (s : Sys) : Sys × Resp :=
  let v := c.value.getD 80
  let s1 := { s with leds := s.leds.set_lighting v }
  (s1, mk_resp s1 true "Éclairage réglé")

/-- Python `_cmd_snapshot`: succeeds iff the camera is available (the evidence
file path is an I/O artefact). -/
def cmd_snapshot (_c : Cmd) (s : Sys) : Sys × Resp :=
  if s.cameraOk then (s, mk_resp s true "Snapshot sauvegardé")
  else (s, mk_resp s false "Snapshot échoué — caméra non disponible")

/-- Python `_cmd_ping`. -/
def cmd_ping (_c : Cmd) (s : Sys) : Sys × Resp :=
  (s, mk_resp s true "pong")

/-- Python `_cmd_reset_odometry`. -/
def cmd_reset_odometry (_c : Cmd) (s : Sys) : Sys × Resp :=
  let s1 := { s with motors := s.motors.reset_odometry }
  (s1, mk_resp s1 true "Odométrie réinitialisée")

/-- The `getattr(self, "_cmd_" + action)` dispatch over the closed action
set (every VALID_COMMANDS member has a handler, so the final
"Commande non implémentée" arm is unreachable through `handle_command`). -/
def dispatch (action : String) (c : Cmd) (s : Sys) : Sys × Resp :=
  if action = "forward" then cmd_forward c s
  else if action = "backward" then cmd_backward c s
  else if action = "turn_left" then cmd_turn_left c s
  else if action = "turn_right" then cmd_turn_right c s
  else if action = "pivot_left" then cmd_pivot_left c s
  else if action = "pivot_right" then cmd_pivot_right c s
  else if action = "stop" then cmd_stop c s
  else if action = "brake" then cmd_brake c s
  else if action = "speed_up" then cmd_speed_up c s
  else if action = "speed_down" then cmd_speed_down c s
  else if action = "set_speed" then cmd_set_speed c s
  else if action = "inspect_start" then cmd_inspect_start c s
  else if action = "inspect_stop" then cmd_inspect_stop c s
  else if action = "inspect_pause" then cmd_inspect_pause c s
  else if action = "inspect_resume" then cmd_inspect_resume c s
  else if action = "estop" then cmd_estop c s
  else if action = "estop_release" then cmd_estop_release c s
  else if action = "light_on" then cmd_light_on c s
  else if action = "light_off" then cmd_light_off c s
  else if action = "light_set" then cmd_light_set c s
  else if action = "snapshot" then cmd_snapshot c s
  else if action = "ping" then cmd_ping c s
  else if action = "reset_odometry" then cmd_reset_odometry c s
  else (s, mk_resp s false ("Commande non implémentée : " ++ action))

/-- Python `NavigationController.handle_command(cmd)`: normalises the action,
rejects unknown actions, rejects everything except estop_release / ping
while in EMERGENCY_STOP, then dispatches to the handler. -/
def handle_command (s : Sys) (c : Cmd) : Sys × Resp :=
  let action := pyLowerStrip c.action
  if action ∉ VALID_COMMANDS then
    (s, mk_resp s false ("Commande inconnue : \x27" ++ action ++ "\x27"))
  else if s.nav.state = RobotState.EMERGENCY_STOP
          ∧ action ≠ "estop_release" ∧ action ≠ "ping" then
    (s, mk_resp s false MSG_EMERGENCY_ACTIVE)
  else dispatch action c s

/-- The system as wired by main.py: all components freshly constructed,
`set_navigation` called, camera available. -/
def Sys.init : Sys :=
  { nav := NavState.init, navWired := true, motors := MotorsState.init
  , safety := { estopActive := false, lastCommandT := 0 }
  , leds := LedsState.init.set_state "ready", readings := Readings.init
  , cameraOk := true }

/-! ## Quick sanity examples (evaluated embedding) -/

example : (handle_command Sys.init ⟨"estop", none⟩).1.nav.state
    = RobotState.EMERGENCY_STOP := by decide
example : (handle_command Sys.init ⟨"estop", none⟩).1.safety.estopActive = false := by
  decide
example : (handle_command Sys.init ⟨"unknown_xyz", none⟩).2.ok = false := by decide
example : (on_obstacle_critical "front" 10
    (Sys.init.set_state RobotState.MOVING_FORWARD)).safety.estopActive = true := by
  decide

/-! ## Helper lemmas -/

/-- After any `trigger_emergency` call the SafetyManager latch is set
(it was either already set, or the call sets it). -/
theorem trigger_post_latch (s : Sys) : (trigger_emergency s).safety.estopActive = true := by
  unfold trigger_emergency Sys.set_state
  by_cases h1 : s.safety.estopActive
  · simp [h1]
  · simp only [h1, Bool.false_eq_true, if_false]
    split <;> rfl

/-- Python `trigger_emergency` is a no-op when the latch is already set. -/
theorem trigger_already_latched (s : Sys) (h : s.safety.estopActive = true) :
    trigger_emergency s = s := by
  unfold trigger_emergency
  simp [h]

/-- Python `trigger_emergency` absorbs a repeated call. -/
theorem trigger_idem (s : Sys) :
    trigger_emergency (trigger_emergency s) = trigger_emergency s :=
  trigger_already_latched _ (trigger_post_latch s)

/-- One ramp step shrinks the gap to `max 0 (gap - RAMP_STEP)`. -/
theorem rampNext_gap (c t : ℚ) :
    |rampNext c t - t| = max 0 (|c - t| - RAMP_STEP) := by
  unfold rampNext RAMP_STEP
  split_ifs with h1 h2
  · rw [sub_self, abs_zero, max_eq_left (by linarith)]
  · have h5 : (5 : ℚ) ≤ |c - t| := not_lt.mp h1
    have habs : |c - t| = t - c := by
      rw [abs_of_nonpos (by linarith), neg_sub]
    rw [habs] at h5 ⊢
    rw [show c + 5 - t = -(t - c - 5) by ring, abs_neg,
      abs_of_nonneg (by linarith), max_eq_right (by linarith)]
  · have h5 : (5 : ℚ) ≤ |c - t| := not_lt.mp h1
    have hct : t ≤ c := not_lt.mp h2
    have habs : |c - t| = c - t := abs_of_nonneg (by linarith)
    rw [habs] at h5 ⊢
    rw [show c - 5 - t = c - t - 5 by ring,
      abs_of_nonneg (by linarith), max_eq_right (by linarith)]

/-- Absorption of the outer truncation when subtracting a nonnegative step. -/
theorem max_zero_sub_absorb (x s : ℚ) (hs : 0 ≤ s) :
    max 0 (max 0 x - s) = max 0 (x - s) := by
  rcases le_total x 0 with hx | hx
  · rw [max_eq_left hx, max_eq_left (by linarith), max_eq_left (by linarith)]
  · rw [max_eq_right hx]

/-- Iterated ramp steps: the gap after `n` ticks. -/
theorem rampIter_gap (c t : ℚ) (n : ℕ) :
    |rampIter n c t - t| = max 0 (|c - t| - n * RAMP_STEP) := by
  induction n with
  | zero => simp [rampIter]
  | succ k ih =>
      have hstep : rampIter (k + 1) c t = rampNext (rampIter k c t) t := by
        unfold rampIter
        rw [Function.iterate_succ_apply']
      rw [hstep, rampNext_gap, ih,
        max_zero_sub_absorb _ _ (by norm_num [RAMP_STEP]),
        Nat.cast_succ]
      ring_nf

/-! ## Claim theorems -/

/-- C4: `trigger_emergency` is idempotent.  When the latch is already set
a call is a strict no-op, and any run of `n + 1` consecutive calls leaves
the system (latch, motors, LEDs, RobotState) exactly as the first call
left it. -/
theorem C4_trigger_emergency_idempotent (s : Sys) (n : ℕ) :
    (s.safety.estopActive = true → trigger_emergency s = s)
    ∧ trigger_emergency^[n + 1] s = trigger_emergency s := by
  refine ⟨trigger_already_latched s, ?_⟩
  induction n with
  | zero => rfl
  | succ k ih =>
      rw [Function.iterate_succ_apply', ih, trigger_idem]

/-- C5: one ramp tick either snaps the per-wheel current speed onto the
target (gap smaller than the step) or moves it exactly RAMP_STEP toward
the target, never overshooting; consequently the current reaches the
target within ⌈gap / RAMP_STEP⌉ ticks. -/
theorem C5_ramp_converges (c t : ℚ) :
    (|rampNext c t - t| = 0 ∨ |rampNext c t - t| = |c - t| - RAMP_STEP)
    ∧ (c ≤ t → rampNext c t ≤ t)
    ∧ (t ≤ c → t ≤ rampNext c t)
    ∧ rampIter ⌈|c - t| / RAMP_STEP⌉₊ c t = t
    ∧ (∀ mo : MotorsState, mo.emergency = false →
        mo.ramp_tick.currentLeft = rampNext mo.currentLeft mo.targetLeft
        ∧ mo.ramp_tick.currentRight = rampNext mo.currentRight mo.targetRight) := by
  refine ⟨?_, ?_, ?_, ?_, ?_⟩
  · rcases le_or_lt (|c - t| - RAMP_STEP) 0 with h | h
    · left
      rw [rampNext_gap, max_eq_left h]
    · right
      rw [rampNext_gap, max_eq_right (le_of_lt h)]
  · intro hct
    unfold rampNext
    split_ifs with h1 h2
    · exact le_refl t
    · have h5 : RAMP_STEP ≤ |c - t| := not_lt.mp h1
      have habs : |c - t| = t - c := by
        rw [abs_of_nonpos (by linarith), neg_sub]
      rw [habs] at h5
      norm_num [RAMP_STEP] at h5 ⊢
      linarith
    · have hc : c = t := le_antisymm hct (not_lt.mp h2)
      subst hc
      simp [RAMP_STEP] at h1
  · intro htc
    unfold rampNext
    split_ifs with h1 h2
    · exact le_refl t
    · have hstep : (0 : ℚ) < RAMP_STEP := by norm_num [RAMP_STEP]
      linarith
    · have h5 : RAMP_STEP ≤ |c - t| := not_lt.mp h1
      have habs : |c - t| = c - t := abs_of_nonneg (by linarith)
      rw [habs] at h5
      norm_num [RAMP_STEP] at h5 ⊢
      linarith
  · have hpos : (0 : ℚ) < RAMP_STEP := by norm_num [RAMP_STEP]
    have hceil : |c - t| ≤ (⌈|c - t| / RAMP_STEP⌉₊ : ℚ) * RAMP_STEP := by
      have h1 : |c - t| / RAMP_STEP ≤ (⌈|c - t| / RAMP_STEP⌉₊ : ℚ) :=
        Nat.le_ceil _
      calc |c - t| = (|c - t| / RAMP_STEP) * RAMP_STEP := by
            field_simp
        _ ≤ (⌈|c - t| / RAMP_STEP⌉₊ : ℚ) * RAMP_STEP :=
            mul_le_mul_of_nonneg_right h1 (le_of_lt hpos)
    have hgap := rampIter_gap c t ⌈|c - t| / RAMP_STEP⌉₊
    rw [max_eq_left (by linarith)] at hgap
    have := abs_eq_zero.mp hgap
    linarith [sub_eq_zero.mp this]
  · intro mo hmo
    unfold MotorsState.ramp_tick
    rw [if_neg (by simp [hmo])]
    exact ⟨rfl, rfl⟩

/-- C6: `_set_targets` clamps both arguments into [-100, 100] before
storing them, and is a complete no-op while the motor emergency latch is
set. -/
theorem C6_set_targets_clamp (m : MotorsState) (l r : ℚ) :
    (m.emergency = true → m.set_targets l r = m)
    ∧ (m.emergency = false →
        (m.set_targets l r).targetLeft = max (-100) (min 100 l)
        ∧ (m.set_targets l r).targetRight = max (-100) (min 100 r)
        ∧ -100 ≤ (m.set_targets l r).targetLeft
        ∧ (m.set_targets l r).targetLeft ≤ 100
        ∧ -100 ≤ (m.set_targets l r).targetRight
        ∧ (m.set_targets l r).targetRight ≤ 100) := by
  constructor
  · intro h
    unfold MotorsState.set_targets
    simp [h]
  · intro h
    have hne : ¬ (m.emergency = true) := by simp [h]
    unfold MotorsState.set_targets clampSpeed SPEED_MAX_PERCENT
    rw [if_neg hne]
    refine ⟨rfl, rfl, le_max_left _ _, ?_, le_max_left _ _, ?_⟩
    · exact max_le (by norm_num) (min_le_left _ _)
    · exact max_le (by norm_num) (min_le_left _ _)

/-- Python float modulo with positive modulus 360 is nonnegative. -/
theorem floatMod_360_nonneg (x : ℚ) : 0 ≤ floatMod x 360 := by
  unfold floatMod
  have h : ((⌊x / 360⌋ : ℤ) : ℚ) ≤ x / 360 := Int.floor_le _
  have h2 : 360 * ((⌊x / 360⌋ : ℤ) : ℚ) ≤ 360 * (x / 360) :=
    mul_le_mul_of_nonneg_left h (by norm_num)
  have h3 : 360 * (x / 360) = x := by ring
  linarith

/-- Python float modulo with positive modulus 360 is below 360. -/
theorem floatMod_360_lt (x : ℚ) : floatMod x 360 < 360 := by
  unfold floatMod
  have h : x / 360 < ((⌊x / 360⌋ : ℤ) : ℚ) + 1 := Int.lt_floor_add_one _
  have h2 : 360 * (x / 360) < 360 * (((⌊x / 360⌋ : ℤ) : ℚ) + 1) := by
    have hpos : (0 : ℚ) < 360 := by norm_num
    exact (mul_lt_mul_left hpos).mpr h
  have h3 : 360 * (x / 360) = x := by ring
  linarith

/-- C9: `update_odometry` preserves the OdometryState invariants: the
cumulative distance never decreases (it grows by the absolute value of
the center displacement), the heading lands in [0, 360) after the
mod-360 update, and both tick counters are reset to zero.  `piq` is the
rational double standing for `math.pi`; the invariants hold for every
value of it. -/
theorem C9_update_odometry_invariants (piq : ℚ) (m : MotorsState) :
    m.distM ≤ (m.update_odometry piq).distM
    ∧ (m.update_odometry piq).distM
      = m.distM + |(((m.ticksLeft : ℚ) / ENCODER_TICKS_PER_REV)
            * (piq * (WHEEL_DIAMETER_MM / 1000))
          + ((m.ticksRight : ℚ) / ENCODER_TICKS_PER_REV)
            * (piq * (WHEEL_DIAMETER_MM / 1000))) / 2|
    ∧ 0 ≤ (m.update_odometry piq).heading
    ∧ (m.update_odometry piq).heading < 360
    ∧ (m.update_odometry piq).ticksLeft = 0
    ∧ (m.update_odometry piq).ticksRight = 0 := by
  unfold MotorsState.update_odometry
  refine ⟨?_, rfl, floatMod_360_nonneg _, floatMod_360_lt _, rfl, rfl⟩
  exact le_add_of_nonneg_right (abs_nonneg _)

/-- Clamping a magnitude of at least 20 keeps its sign and caps it at 100. -/
theorem clampSpeed_of_ge (s : ℚ) (hs : 20 ≤ s) :
    clampSpeed s = min 100 s ∧ clampSpeed (-s) = -(min 100 s)
    ∧ 20 ≤ min 100 s := by
  unfold clampSpeed SPEED_MAX_PERCENT
  refine ⟨max_eq_right (le_min (by norm_num) (by linarith)), ?_, le_min (by norm_num) hs⟩
  rw [min_eq_right (by linarith : -s ≤ 100), show (-100 : ℚ) = -(100 : ℚ) by norm_num,
    max_neg_neg]

/-- C10 (implicit claim): `set_speed_pct` stores the magnitude
`max(SPEED_MIN_PERCENT, |v|)` (clamped at 100) on both wheels — never
below 20 % and never zero — and a wheel whose target is exactly 0 gets
the positive (forward) sign, so calling it with both targets at 0
commands forward motion at ≥ 20 %. -/
theorem C10_set_speed_pct_floor (m : MotorsState) (v : ℚ)
    (h : m.emergency = false) :
    |(m.set_speed_pct v).targetLeft| = min 100 (max SPEED_MIN_PERCENT |v|)
    ∧ |(m.set_speed_pct v).targetRight| = min 100 (max SPEED_MIN_PERCENT |v|)
    ∧ SPEED_MIN_PERCENT ≤ |(m.set_speed_pct v).targetLeft|
    ∧ (m.targetLeft = 0 →
        (m.set_speed_pct v).targetLeft = min 100 (max SPEED_MIN_PERCENT |v|)
        ∧ 0 < (m.set_speed_pct v).targetLeft)
    ∧ (m.targetRight = 0 → 0 < (m.set_speed_pct v).targetRight) := by
  have hne : ¬ (m.emergency = true) := by simp [h]
  have hs : 20 ≤ max SPEED_MIN_PERCENT |v| := by
    unfold SPEED_MIN_PERCENT
    exact le_max_left _ _
  obtain ⟨hpos, hneg, hmin⟩ := clampSpeed_of_ge _ hs
  have hL : (m.set_speed_pct v).targetLeft
      = clampSpeed ((if 0 ≤ m.targetLeft then (1 : ℚ) else -1) * max SPEED_MIN_PERCENT |v|) := by
    unfold MotorsState.set_speed_pct MotorsState.set_targets clampSpeed
    rw [if_neg hne]
  have hR : (m.set_speed_pct v).targetRight
      = clampSpeed ((if 0 ≤ m.targetRight then (1 : ℚ) else -1) * max SPEED_MIN_PERCENT |v|) := by
    unfold MotorsState.set_speed_pct MotorsState.set_targets clampSpeed
    rw [if_neg hne]
  have habsL : |(m.set_speed_pct v).targetLeft| = min 100 (max SPEED_MIN_PERCENT |v|) := by
    rw [hL]
    by_cases hsign : 0 ≤ m.targetLeft
    · rw [if_pos hsign, one_mul, hpos, abs_of_nonneg (by linarith)]
    · rw [if_neg hsign, neg_one_mul, hneg, abs_neg, abs_of_nonneg (by linarith)]
  have habsR : |(m.set_speed_pct v).targetRight| = min 100 (max SPEED_MIN_PERCENT |v|) := by
    rw [hR]
    by_cases hsign : 0 ≤ m.targetRight
    · rw [if_pos hsign, one_mul, hpos, abs_of_nonneg (by linarith)]
    · rw [if_neg hsign, neg_one_mul, hneg, abs_neg, abs_of_nonneg (by linarith)]
  refine ⟨habsL, habsR, ?_, ?_, ?_⟩
  · rw [habsL]
    unfold SPEED_MIN_PERCENT
    unfold SPEED_MIN_PERCENT at hmin
    exact hmin
  · intro hzero
    have hsign : 0 ≤ m.targetLeft := le_of_eq hzero.symm
    have : (m.set_speed_pct v).targetLeft = min 100 (max SPEED_MIN_PERCENT |v|) := by
      rw [hL, if_pos hsign, one_mul, hpos]
    exact ⟨this, by rw [this]; linarith⟩
  · intro hzero
    have hsign : 0 ≤ m.targetRight := le_of_eq hzero.symm
    have : (m.set_speed_pct v).targetRight = min 100 (max SPEED_MIN_PERCENT |v|) := by
      rw [hR, if_pos hsign, one_mul, hpos]
    rw [this]
    linarith

/-- Python `stop()` leaves the motor emergency flag unchanged (it only writes
targets through `_set_targets`). -/
theorem set_targets_emergency (m : MotorsState) (l r : ℚ) :
    (m.set_targets l r).emergency = m.emergency := by
  unfold MotorsState.set_targets
  split <;> rfl

/-- When the motor emergency flag is clear, `stop()` zeroes both targets. -/
theorem stop_targets_zero (m : MotorsState) (h : m.emergency = false) :
    m.stop.targetLeft = 0 ∧ m.stop.targetRight = 0 := by
  have hne : ¬ (m.emergency = true) := by simp [h]
  unfold MotorsState.stop MotorsState.set_targets clampSpeed SPEED_MAX_PERCENT
  rw [if_neg hne]
  constructor <;>
    · show max (-100 : ℚ) (min 100 0) = 0
      rw [min_eq_right (by norm_num : (0:ℚ) ≤ 100), max_eq_right (by norm_num : (-100:ℚ) ≤ 0)]

/-- C7: when the watchdog fires (latch clear, more than 15 s since the
last command) it issues a non-latching soft stop: the motors are ramped
to zero via `stop()`, the SafetyManager latch stays unset, the motor
emergency flag is untouched, and RobotState goes to IDLE — never forced
to EMERGENCY_STOP. -/
theorem C7_watchdog_soft_stop (now : ℚ) (s : Sys)
    (hLatch : s.safety.estopActive = false)
    (hElapsed : now - s.safety.lastCommandT > WATCHDOG_TIMEOUT_S) :
    (watchdog_check now s).safety.estopActive = false
    ∧ (watchdog_check now s).motors = s.motors.stop
    ∧ (watchdog_check now s).motors.emergency = s.motors.emergency
    ∧ (s.motors.emergency = false →
        (watchdog_check now s).motors.targetLeft = 0
        ∧ (watchdog_check now s).motors.targetRight = 0)
    ∧ (s.navWired = true → (watchdog_check now s).nav.state = RobotState.IDLE)
    ∧ ((watchdog_check now s).nav.state = RobotState.EMERGENCY_STOP →
        s.nav.state = RobotState.EMERGENCY_STOP) := by
  have hne : ¬ (s.safety.estopActive = true) := by simp [hLatch]
  have hshape : watchdog_check now s
      = (if s.navWired then
          { s with motors := s.motors.stop
                 , nav := { s.nav with state := RobotState.IDLE }
                 , leds := s.leds.set_state "warning" }
        else
          { s with motors := s.motors.stop
                 , leds := s.leds.set_state "warning" }) := by
    unfold watchdog_check Sys.set_state
    rw [if_neg hne, if_pos hElapsed]
    dsimp only
    split <;> rfl
  rw [hshape]
  by_cases hw : s.navWired
  · rw [if_pos hw]
    refine ⟨hLatch, rfl, set_targets_emergency _ _ _, ?_, fun _ => rfl, ?_⟩
    · intro hm
      exact stop_targets_zero s.motors hm
    · intro habs
      exact RobotState.noConfusion habs
  · rw [if_neg hw]
    refine ⟨hLatch, rfl, set_targets_emergency _ _ _, ?_, ?_, fun habs => habs⟩
    · intro hm
      exact stop_targets_zero s.motors hm
    · intro hww
      exact absurd hww hw

/-- C7 witness: the initial system, 16 s after the last command. -/
theorem C7_witness :
    (watchdog_check 16 Sys.init).safety.estopActive = false
    ∧ (watchdog_check 16 Sys.init).nav.state = RobotState.IDLE
    ∧ (watchdog_check 16 Sys.init).motors.targetLeft = 0 := by
  have h := C7_watchdog_soft_stop 16 Sys.init rfl
    (by show (16 : ℚ) - 0 > WATCHDOG_TIMEOUT_S; norm_num [WATCHDOG_TIMEOUT_S])
  exact ⟨h.1, h.2.2.2.2.1 rfl, (h.2.2.2.1 rfl).1⟩

/-- C8: the fosse/track-limit check: inside the 2 m margin below the
200 m limit it soft-stops the motors and flashes orange without touching
the latch or RobotState; at or beyond the limit it triggers the full
emergency latch. -/
theorem C8_fosse_limits (s : Sys) (d : ℚ) :
    (FOSSE_LENGTH_M - 2 ≤ d → d < FOSSE_LENGTH_M →
        check_fosse_limits d s
          = { s with motors := s.motors.stop, leds := s.leds.flash "orange" }
        ∧ (check_fosse_limits d s).safety.estopActive = s.safety.estopActive
        ∧ (check_fosse_limits d s).nav.state = s.nav.state
        ∧ (check_fosse_limits d s).leds.flashes = "orange" :: s.leds.flashes)
    ∧ (FOSSE_LENGTH_M ≤ d → (check_fosse_limits d s).safety.estopActive = true) := by
  constructor
  · intro h1 h2
    have hshape : check_fosse_limits d s
        = { s with motors := s.motors.stop, leds := s.leds.flash "orange" } := by
      unfold check_fosse_limits
      rw [if_pos h1, if_neg (not_le.mpr h2)]
    rw [hshape]
    exact ⟨rfl, rfl, rfl, rfl⟩
  · intro h
    unfold check_fosse_limits
    rw [if_pos h]
    exact trigger_post_latch _

/-- A wired system moving forward at 60 %, latch clear: the setting of
the C2 counterexample. -/
def sysC2 : Sys :=
  { Sys.init with
    nav := { NavState.init with state := RobotState.MOVING_FORWARD }
  , motors := { MotorsState.init with
                targetLeft := 60, targetRight := 60
              , currentLeft := 60, currentRight := 60 } }

/-- C2 counterexample: a critical reading on the side sensor "left" while
moving forward is direction-uncorrelated, and the wired handler performs
NO action at all — in particular it does not brake (the claim says every
uncorrelated case gets a non-latching `brake()`). -/
theorem C2_counterexample :
    sysC2.navWired = true
    ∧ sysC2.safety.estopActive = false
    ∧ on_obstacle_critical "left" 10 sysC2 = sysC2
    ∧ (on_obstacle_critical "left" 10 sysC2).motors ≠ sysC2.motors.brake
    ∧ (on_obstacle_critical "left" 10 sysC2).motors.currentLeft = 60 := by
  decide

/-- C2 amended: with navigation wired, `_on_obstacle_critical` triggers
the full latch iff the sensor direction correlates with the commanded
motion (front/forward or rear/backward) and otherwise performs no action
at all (no brake, latch untouched); the non-latching `brake()` happens
only in the unwired (`self._nav` is None) configuration. -/
theorem C2_amended_critical_correlation (s : Sys) (sensor : String) (d : ℚ) :
    (s.navWired = true → critical_correlated s sensor →
        on_obstacle_critical sensor d s = trigger_emergency s
        ∧ (on_obstacle_critical sensor d s).safety.estopActive = true)
    ∧ (s.navWired = true → ¬ critical_correlated s sensor →
        on_obstacle_critical sensor d s = s)
    ∧ (s.navWired = false →
        on_obstacle_critical sensor d s = { s with motors := s.motors.brake }) := by
  refine ⟨?_, ?_, ?_⟩
  · intro hw hc
    unfold on_obstacle_critical
    rw [if_pos hw, if_pos hc]
    exact ⟨rfl, trigger_post_latch s⟩
  · intro hw hc
    unfold on_obstacle_critical
    rw [if_pos hw, if_neg hc]
  · intro hw
    unfold on_obstacle_critical
    rw [if_neg (by simp [hw])]

/-- The initial system with RobotState forced to EMERGENCY_STOP (as after
an estop command). -/
def sysE : Sys := Sys.init.set_state RobotState.EMERGENCY_STOP

/-- C1 counterexample: handling `{"action":"estop"}` from the wired
initial system is accepted and handled, yet the SafetyArbiter latch
(`SafetyManager._estop_active`, the telemetry `estop` field) stays false
— the handler acts on the MotorController directly instead of delegating;
likewise `estop_release` leaves the SafetyManager (latch and watchdog
clock) untouched. -/
theorem C1_counterexample :
    Sys.init.safety.estopActive = false
    ∧ (handle_command Sys.init ⟨"estop", none⟩).2.ok = true
    ∧ (handle_command Sys.init ⟨"estop", none⟩).1.safety.estopActive = false
    ∧ (handle_command Sys.init ⟨"estop", none⟩).1.nav.state = RobotState.EMERGENCY_STOP
    ∧ (handle_command
        (handle_command Sys.init ⟨"estop", none⟩).1 ⟨"estop_release", none⟩).1.safety
      = Sys.init.safety := by
  decide

/-- C1 amended: the estop / estop_release command handlers act on the
MotorController and RobotState directly and do not go through the
SafetyManager.  From any state other than EMERGENCY_STOP, estop sets the
motor emergency flag and RobotState to EMERGENCY_STOP; from EVERY state
(the EMERGENCY_STOP gate exempts estop_release, so in particular from
EMERGENCY_STOP itself), estop_release clears the motor flag and returns
RobotState to IDLE; in both cases the SafetyManager state (latch and
watchdog clock) is completely unchanged. -/
theorem C1_amended_estop_direct (s : Sys) :
    (s.nav.state ≠ RobotState.EMERGENCY_STOP →
        (handle_command s ⟨"estop", none⟩).1.motors.emergency = true
        ∧ (handle_command s ⟨"estop", none⟩).1.nav.state = RobotState.EMERGENCY_STOP
        ∧ (handle_command s ⟨"estop", none⟩).1.safety = s.safety)
    ∧ (handle_command s ⟨"estop_release", none⟩).1.motors.emergency = false
    ∧ (handle_command s ⟨"estop_release", none⟩).1.nav.state = RobotState.IDLE
    ∧ (handle_command s ⟨"estop_release", none⟩).1.safety = s.safety := by
  have hrel : handle_command s ⟨"estop_release", none⟩
      = cmd_estop_release ⟨"estop_release", none⟩ s := by
    unfold handle_command
    dsimp only
    rw [show pyLowerStrip "estop_release" = "estop_release" from by decide]
    rw [if_neg (by decide : ¬ ("estop_release" ∉ VALID_COMMANDS))]
    rw [if_neg (fun hc => hc.2.1 rfl)]
    simp [dispatch]
  refine ⟨?_, ?_, ?_, ?_⟩
  · intro h
    have hestop : handle_command s ⟨"estop", none⟩ = cmd_estop ⟨"estop", none⟩ s := by
      unfold handle_command
      dsimp only
      rw [show pyLowerStrip "estop" = "estop" from by decide]
      rw [if_neg (by decide : ¬ ("estop" ∉ VALID_COMMANDS))]
      rw [if_neg (fun hc => h hc.1)]
      simp [dispatch]
    rw [hestop]
    exact ⟨rfl, rfl, rfl⟩
  · rw [hrel]; exact rfl
  · rw [hrel]; exact rfl
  · rw [hrel]; exact rfl

/-- C1 witness: estop from the initial system latches the motors, and
estop_release issued while in EMERGENCY_STOP returns RobotState to IDLE
with the motor flag cleared. -/
theorem C1_witness :
    (handle_command Sys.init ⟨"estop", none⟩).1.motors.emergency = true
    ∧ (handle_command sysE ⟨"estop_release", none⟩).1.motors.emergency = false
    ∧ (handle_command sysE ⟨"estop_release", none⟩).1.nav.state
      = RobotState.IDLE := by
  have h1 := C1_amended_estop_direct Sys.init
  have h2 := C1_amended_estop_direct sysE
  exact ⟨(h1.1 (by decide)).1, h2.2.1, h2.2.2.1⟩

/-- C3 counterexample: in EMERGENCY_STOP an unknown action (a command
record whose action is neither estop_release nor ping) is rejected with
the "Commande inconnue" message, not with the emergency-active message
the claim requires for every such record. -/
theorem C3_counterexample :
    sysE.nav.state = RobotState.EMERGENCY_STOP
    ∧ (handle_command sysE ⟨"unknown_xyz", none⟩).2.ok = false
    ∧ (handle_command sysE ⟨"unknown_xyz", none⟩).2.msg ≠ MSG_EMERGENCY_ACTIVE := by
  decide

/-- C3 amended: while RobotState is EMERGENCY_STOP, every RECOGNISED
command (one whose normalised action is in VALID_COMMANDS) other than
estop_release and ping is rejected with the explicit emergency-active
message, and neither the system state nor the stored speed changes. -/
theorem C3_amended_emergency_rejects (s : Sys) (c : Cmd)
    (hstate : s.nav.state = RobotState.EMERGENCY_STOP)
    (hvalid : pyLowerStrip c.action ∈ VALID_COMMANDS)
    (hrel : pyLowerStrip c.action ≠ "estop_release")
    (hping : pyLowerStrip c.action ≠ "ping") :
    handle_command s c = (s, mk_resp s false MSG_EMERGENCY_ACTIVE)
    ∧ (handle_command s c).1 = s
    ∧ (handle_command s c).2.ok = false
    ∧ (handle_command s c).2.msg = MSG_EMERGENCY_ACTIVE
    ∧ (handle_command s c).2.speed = s.nav.speedPct := by
  have h1 : ¬ (pyLowerStrip c.action ∉ VALID_COMMANDS) := not_not_intro hvalid
  have hshape : handle_command s c = (s, mk_resp s false MSG_EMERGENCY_ACTIVE) := by
    unfold handle_command
    dsimp only
    rw [if_neg h1, if_pos ⟨hstate, hrel, hping⟩]
  rw [hshape]
  exact ⟨rfl, rfl, rfl, rfl, rfl⟩

/-- C3 witness: a forward command in EMERGENCY_STOP is rejected with the
emergency-active message and no state change. -/
theorem C3_witness :
    handle_command sysE ⟨"forward", none⟩
      = (sysE, mk_resp sysE false MSG_EMERGENCY_ACTIVE) := by
  exact (C3_amended_emergency_rejects sysE ⟨"forward", none⟩ (by decide) (by decide)
    (by decide) (by decide)).1

/-- C10 witness: from zero targets and a 0 % argument, both wheels are
commanded forward at exactly 20 %. -/
theorem C10_witness :
    (MotorsState.init.set_speed_pct 0).targetLeft = 20
    ∧ 0 < (MotorsState.init.set_speed_pct 0).targetLeft
    ∧ 0 < (MotorsState.init.set_speed_pct 0).targetRight := by
  have h := C10_set_speed_pct_floor MotorsState.init 0 rfl
  obtain ⟨hval, hposL⟩ := h.2.2.2.1 rfl
  have hposR := h.2.2.2.2 rfl
  refine ⟨?_, hposL, hposR⟩
  rw [hval]
  norm_num [SPEED_MIN_PERCENT]

example : clampSpeed 150 = 100 := by norm_num [clampSpeed, SPEED_MAX_PERCENT]
example : clampSpeed (-150) = -100 := by norm_num [clampSpeed, SPEED_MAX_PERCENT]
example : rampNext 0 60 = 5 := by norm_num [rampNext, RAMP_STEP]
example : rampNext 58 60 = 60 := by norm_num [rampNext, RAMP_STEP]
example : (MotorsState.init.set_targets 30 (-130)).targetRight = -100 := by
  norm_num [MotorsState.init, MotorsState.set_targets, clampSpeed, SPEED_MAX_PERCENT]
example : (MotorsState.init.emergency_stop.set_targets 30 40).targetLeft = 0 := by
  norm_num [MotorsState.init, MotorsState.set_targets, MotorsState.emergency_stop]
